import Mathlib

/-!
Verification of the cursor-based pagination controller of
src/static/app/views/issueDetails/streamline/eventList.tsx.

The controller logic lives in the renderTableHeader callback (lines 72-146 of
the source): it derives the range summary, the previous/next disabled flags and
the outbound navigation locations from the pagination header, the page counts,
the loading flag and the ambient location.

The two helper functions the source imports, parseLinkHeader (from
sentry/utils/parseLinkHeader) and parseCursor (from sentry/utils/cursor), are
code of the repository that is not under src; they are modelled from the spec
(sections 3 and 4.1), as marked on their doc comments.
-/

namespace EventList

/-! ### Character-list utilities

The parsers work on lists of characters so that every definition is
structurally recursive and evaluates inside the kernel. -/

/-- Splits a character list at every occurrence of the separator character.
The result is always non-empty. -/
def splitOnChar (sep : Char) : List Char → List (List Char)
  | [] => [[]]
  | c :: cs =>
    match splitOnChar sep cs with
    | [] => [[c]]
    | h :: t => if c = sep then [] :: h :: t else (c :: h) :: t

/-- Removes leading and trailing space characters. -/
def trimChars (cs : List Char) : List Char :=
  ((cs.dropWhile (fun c => c == ' ')).reverse.dropWhile (fun c => c == ' ')).reverse

/-- Decodes a non-empty run of decimal digits; fails on anything else. -/
def digitsToNat? : List Char → Option Nat
  | [] => none
  | cs =>
    if cs.all Char.isDigit then
      some (cs.foldl (fun n c => n * 10 + (c.toNat - 48)) 0)
    else none

/-! ### Data model -/

/-- Decoded form of the cursor query parameter (spec section 3): the offset is
the position of the first item of the current page. -/
structure Cursor where
  value : String
  offset : Nat
  hasResults : Bool
deriving DecidableEq

/-- One directional link of the parsed pagination header (spec section 3):
an optional cursor token and the results-available flag. The field names
follow the shape the source reads (links.previous.results,
links.previous.cursor). -/
structure LinkDescriptor where
  cursor : Option String
  results : Bool
deriving DecidableEq

/-- The descriptor the parser yields for a missing or malformed direction:
no cursor, no results available (spec section 4.1, fail-soft). -/
def emptyDescriptor : LinkDescriptor := { cursor := none, results := false }

/-- Output of the link header parser: both directions always populated
(spec section 4.1). -/
structure ParsedLinks where
  previous : LinkDescriptor
  next : LinkDescriptor
deriving DecidableEq

/-- One well-formed entry of the raw header, before the directions are
assembled: its relation token, results flag and optional cursor token. -/
structure RawLink where
  rel : List Char
  results : Bool
  cursor : Option String
deriving DecidableEq

/-- The two navigation directions of the pagination widget. -/
inductive Direction
  | previous
  | next
deriving DecidableEq

/-- Relation token of a direction, as it appears in the header. -/
def dirRel : Direction → List Char
  | .previous => "previous".data
  | .next => "next".data

/-- Selects the descriptor of a direction from the parsed links. -/
def linkFor : Direction → ParsedLinks → LinkDescriptor
  | .previous, links => links.previous
  | .next, links => links.next

/-! ### Link header parser, modelled from the spec -/

/-- Modelled from the spec: one key-value parameter of a header entry, of the
form key="value" (spec section 4.1, documented link-relation encoding).
Fails on any other shape. -/
def parseParam (part : List Char) : Option (List Char × List Char) :=
  let part := trimChars part
  let k := part.takeWhile (fun c => c != '=')
  match part.dropWhile (fun c => c != '=') with
  | _ :: '"' :: vs =>
    match vs.getLast? with
    | some q => if q = '"' then some (k, vs.dropLast) else none
    | none => none
  | _ => none

/-- Looks a key up among the parsed parameters of one entry. -/
def lookupParam (k : List Char) : List (List Char × List Char) → Option (List Char)
  | [] => none
  | p :: ps => if p.1 = k then some p.2 else lookupParam k ps

/-- Modelled from the spec: one entry of the pagination header, of the
documented form <uri>; rel="previous or next"; results="true or false";
cursor="..." (spec section 4.1). A malformed entry yields none (fail-soft);
the results flag is true exactly when a results parameter says "true", and
the cursor token is optional. -/
def parseSegment (seg : List Char) : Option RawLink :=
  match splitOnChar ';' seg with
  | uri :: params =>
    let uri := trimChars uri
    match uri with
    | '<' :: rest =>
      if rest.getLast? = some '>' then
        let kvs := params.filterMap parseParam
        match lookupParam "rel".data kvs with
        | some r =>
          some { rel := r
                 results := lookupParam "results".data kvs == some "true".data
                 cursor := (lookupParam "cursor".data kvs).map (fun cs => String.mk cs) }
        | none => none
      else none
    | _ => none
  | [] => none

/-- The well-formed entries of a header: the header is split at commas and
each piece is parsed fail-soft. An absent header has no entries. -/
def rawLinks (header : Option String) : List RawLink :=
  match header with
  | none => []
  | some h => (splitOnChar ',' h.data).filterMap parseSegment

/-- Assembles the descriptor of one relation token from the parsed entries:
the last entry carrying that token wins; no entry yields the empty
descriptor (spec section 4.1: absent direction is unavailable, unknown
relation tokens are ignored). -/
def descriptorFor (rel : List Char) (raws : List RawLink) : LinkDescriptor :=
  match (raws.filter (fun r => r.rel == rel)).getLast? with
  | some r => { cursor := r.cursor, results := r.results }
  | none => emptyDescriptor

/-- Modelled from the spec: parseLinkHeader (imported by the source from
sentry/utils/parseLinkHeader, not under src). Spec section 4.1: decodes the
opaque header into both directional descriptors, always populating both; a
missing or malformed entry for a direction yields the empty descriptor, and
the function never fails. -/
def parseLinkHeader (header : Option String) : ParsedLinks :=
  { previous := descriptorFor "previous".data (rawLinks header)
    next := descriptorFor "next".data (rawLinks header) }

/-- Whether the header has a well-formed entry whose relation token names the
given direction. -/
def hasRelEntry (header : Option String) (dir : Direction) : Bool :=
  (rawLinks header).any (fun r => r.rel == dirRel dir)

/-! ### Cursor parameter parser, modelled from the spec -/

/-- Modelled from the spec: parseCursor (imported by the source from
sentry/utils/cursor, not under src). Spec sections 3 and 8: the cursor query
parameter is a colon-separated triple value:offset:flag, as in the Scenario A
token 10:20:0 whose offset is 20; an absent or unparseable parameter yields
none, which the caller treats as offset 0. -/
def parseCursor (s : Option String) : Option Cursor :=
  match s with
  | none => none
  | some c =>
    match splitOnChar ':' c.data with
    | [v, off, flag] =>
      match digitsToNat? off with
      | some o => some { value := String.mk v, offset := o, hasResults := flag == "1".data }
      | none => none
    | _ => none

/-! ### Navigation locations

The query string is a key-value bag with JavaScript object semantics: a key
may be present with an undefined value, which is distinct from the key being
absent. A value of none models an undefined value. -/

/-- A query bag: each key maps to a string value or to an undefined value. -/
abbrev Query := List (String × Option String)

/-- A navigation location: a path and its query parameters
(spec section 3, NavigationLocation). -/
structure Location where
  pathname : String
  query : Query
deriving DecidableEq

/-- The JavaScript object-spread update the source performs on the query
(lines 106-109 and 121-124): the key is bound to the given value, becoming
present even when the value is undefined; every other key keeps its value. -/
def setKey (q : Query) (k : String) (v : Option String) : Query :=
  q.filter (fun p => p.1 != k) ++ [(k, v)]

/-- Reads a key from the query bag: none when the key is absent, some v when
it is present with value v (where v itself may be the undefined value). -/
def getKey (q : Query) (k : String) : Option (Option String) :=
  (q.find? (fun p => p.1 == k)).map (fun p => p.2)

/-- The cursor parameter the source reads on line 81 (location.query cursor):
a key present with an undefined value reads the same as an absent key. -/
def queryCursor (q : Query) : Option String :=
  (getKey q "cursor").bind (fun v => v)

/-! ### Pagination controller, from the source -/

/-- The per-page inputs of the controller: the renderTableHeader props
pageEventsCount, totalEventsCount and isPending (source lines 72-77). The
spec calls these PageStats with pageItemCount, totalItemCount, isLoading. -/
structure PageStats where
  pageEventsCount : Nat
  totalEventsCount : Nat
  isPending : Bool
deriving DecidableEq

/-- The displayed range: showing start to stop of total. The source renders
it on lines 90-94; stop plays the role the spec calls end. -/
structure DisplayRange where
  start : Nat
  stop : Nat
  total : Nat
deriving DecidableEq

/-- The start offset of the current page, source lines 81-82: the offset of
the parsed current cursor, defaulting to 0. -/
def startOffset (cursorParam : Option String) : Nat :=
  ((parseCursor cursorParam).map Cursor.offset).getD 0

/-- The range summary, source lines 88-94: nothing while isPending, otherwise
start to start plus pageEventsCount of totalEventsCount. -/
def computeRange (cursorParam : Option String) (stats : PageStats) : Option DisplayRange :=
  if stats.isPending then none
  else
    some { start := startOffset cursorParam
           stop := startOffset cursorParam + stats.pageEventsCount
           total := stats.totalEventsCount }

/-- The disabled state of one direction button, source lines 79-80 with 111
and 126: disabled while isPending, and whenever the results flag of that
direction is false. -/
def directionDisabled (dir : Direction) (links : ParsedLinks) (isPending : Bool) : Bool :=
  isPending || ((linkFor dir links).results == false)

/-- The enabled state of one direction: the negation of the disabled state
the source puts on the button. -/
def isDirectionEnabled (dir : Direction) (links : ParsedLinks) (isLoading : Bool) : Bool :=
  !(directionDisabled dir links isLoading)

/-- The target location of one direction button, source lines 104-110 and
119-125: the current location spread with the cursor key bound to that
direction's cursor token. -/
def nextLocation (dir : Direction) (links : ParsedLinks) (loc : Location) : Location :=
  { pathname := loc.pathname
    query := setKey loc.query "cursor" (linkFor dir links).cursor }

/-- The target location of the close button, source lines 136-139: the base
url as path, the current query passed through unchanged. -/
def closeLocation (loc : Location) (baseUrl : String) : Location :=
  { pathname := baseUrl, query := loc.query }

/-- Everything the header derives: the range summary, both disabled flags and
the three target locations. -/
structure HeaderState where
  range : Option DisplayRange
  previousDisabled : Bool
  nextDisabled : Bool
  previousTo : Location
  nextTo : Location
  closeTo : Location
deriving DecidableEq

/-- The renderTableHeader callback, source lines 72-146, as the pure function
from its inputs to the derived header state. -/
def renderTableHeader (pageLinks : Option String) (pageEventsCount totalEventsCount : Nat)
    (isPending : Bool) (location : Location) (baseUrl : String) : HeaderState :=
  let links := parseLinkHeader pageLinks
  { range := computeRange (queryCursor location.query)
      { pageEventsCount := pageEventsCount
        totalEventsCount := totalEventsCount
        isPending := isPending }
    previousDisabled := directionDisabled .previous links isPending
    nextDisabled := directionDisabled .next links isPending
    previousTo := nextLocation .previous links location
    nextTo := nextLocation .next links location
    closeTo := closeLocation location baseUrl }

/-! ### Scenario A of spec section 8, as concrete inputs -/

/-- The Scenario A pagination header: previous with results false, next with
results true and cursor token 10:20:0. -/
def scenarioAHeader : String :=
  "<u>; rel=\"previous\"; results=\"false\", <u>; rel=\"next\"; results=\"true\"; cursor=\"10:20:0\""

/-- The Scenario A current location: one unrelated query key and a current
cursor whose offset is 10. -/
def scenarioALocation : Location :=
  { pathname := "/issues/1/events/"
    query := [("statsPeriod", some "14d"), ("cursor", some "0:10:0")] }

/-- The header state Scenario A derives: page count 20, total 57, not
pending. -/
def scenarioAState : HeaderState :=
  renderTableHeader (some scenarioAHeader) 20 57 false scenarioALocation "/issues/1/"

/-! ### Helper lemmas on the query bag -/

/-- Searching the filtered bag for the removed key finds nothing. -/
theorem find?_filter_self (q : Query) (k : String) :
    List.find? (fun p => p.1 == k) (q.filter (fun p => p.1 != k)) = none := by
  apply List.find?_eq_none.mpr
  intro x hx
  have hne := (List.mem_filter.mp hx).2
  simp only [bne_iff_ne] at hne
  simp [hne]

/-- Filtering the updated key out does not change the search for any other
key. -/
theorem find?_filter_ne (q : Query) (k k' : String) (h : k' ≠ k) :
    List.find? (fun p => p.1 == k') (q.filter (fun p => p.1 != k)) =
    List.find? (fun p => p.1 == k') q := by
  induction q with
  | nil => rfl
  | cons p ps ih =>
    have hk : (k == k') = false := by simp [Ne.symm h]
    by_cases hp : p.1 = k
    · simp [List.filter_cons, hp, List.find?_cons, hk, ih]
    · by_cases hq : p.1 = k'
      · simp [List.filter_cons, hp, List.find?_cons, hq, h]
      · simp [List.filter_cons, hp, List.find?_cons, hq, ih]

/-- After the spread update, the updated key reads back the written value. -/
theorem getKey_setKey_self (q : Query) (k : String) (v : Option String) :
    getKey (setKey q k v) k = some v := by
  simp [getKey, setKey, List.find?_append, find?_filter_self, List.find?]

/-- After the spread update, every other key reads back its old value. -/
theorem getKey_setKey_ne (q : Query) (k k' : String) (v : Option String) (h : k' ≠ k) :
    getKey (setKey q k v) k' = getKey q k' := by
  have hk : (k == k') = false := by simp [Ne.symm h]
  simp [getKey, setKey, List.find?_append, find?_filter_ne q k k' h, List.find?, hk]

/-- A relation token with no well-formed entry assembles to the empty
descriptor. -/
theorem descriptorFor_of_no_entry (rel : List Char) (raws : List RawLink)
    (h : raws.any (fun r => r.rel == rel) = false) :
    descriptorFor rel raws = emptyDescriptor := by
  have hf : raws.filter (fun r => r.rel == rel) = [] := by
    induction raws with
    | nil => rfl
    | cons r rs ih =>
      simp only [List.any_cons, Bool.or_eq_false_iff] at h
      simp [List.filter_cons, h.1, ih h.2]
  simp [descriptorFor, hf]

/-- The parsed descriptor of a direction is assembled from the raw entries
carrying that direction's relation token. -/
theorem linkFor_parseLinkHeader (dir : Direction) (header : Option String) :
    linkFor dir (parseLinkHeader header) = descriptorFor (dirRel dir) (rawLinks header) := by
  cases dir <;> rfl

/-! ### Claims -/

/-- Claim C1: for every pagination header that has no well-formed rel entry
for a direction, the enabled-state computation for that direction returns
false (the direction stays disabled), whatever the value of isLoading. -/
theorem C1_missing_rel_disabled (header : Option String) (dir : Direction) (isLoading : Bool)
    (h : hasRelEntry header dir = false) :
    isDirectionEnabled dir (parseLinkHeader header) isLoading = false := by
  have hd : linkFor dir (parseLinkHeader header) = emptyDescriptor := by
    rw [linkFor_parseLinkHeader]
    exact descriptorFor_of_no_entry _ _ h
  simp [isDirectionEnabled, directionDisabled, hd, emptyDescriptor]

/-- Witness for C1: a header carrying only a next entry, checked for the
previous direction with isLoading true. -/
theorem C1_witness :
    hasRelEntry (some "<u>; rel=\"next\"; results=\"true\"") Direction.previous = false ∧
    isDirectionEnabled Direction.previous
      (parseLinkHeader (some "<u>; rel=\"next\"; results=\"true\"")) true = false :=
  ⟨by decide, C1_missing_rel_disabled _ _ true (by decide)⟩

/-- Claim C2: while loading, the range is absent; otherwise it is the start
offset up to start plus the page count, out of the total count, and the start
offset defaults to 0 on an absent or unparseable cursor parameter. -/
theorem C2_computeRange_spec (c : Option String) (stats : PageStats) :
    (stats.isPending = true → computeRange c stats = none) ∧
    (stats.isPending = false → computeRange c stats =
      some { start := startOffset c
             stop := startOffset c + stats.pageEventsCount
             total := stats.totalEventsCount }) ∧
    (parseCursor c = none → startOffset c = 0) ∧
    (c = none → parseCursor c = none) := by
  refine ⟨fun h => by simp [computeRange, h], fun h => by simp [computeRange, h],
    fun h => by simp [startOffset, h], fun h => by simp [parseCursor, h]⟩

/-- Witness for C2: an unparseable cursor parameter, once loading and once
idle. -/
theorem C2_witness :
    computeRange (some "xx") { pageEventsCount := 5, totalEventsCount := 9, isPending := true } =
      none ∧
    computeRange (some "xx") { pageEventsCount := 5, totalEventsCount := 9, isPending := false } =
      some { start := startOffset (some "xx"), stop := startOffset (some "xx") + 5, total := 9 } :=
  ⟨(C2_computeRange_spec (some "xx") _).1 rfl, (C2_computeRange_spec (some "xx") _).2.1 rfl⟩

/-- Claim C3: a direction is disabled whenever isLoading holds; when idle it
is disabled exactly when its results flag is false; and the state only
depends on that results flag, never on the cursor token. -/
theorem C3_disabled_iff_no_results (dir : Direction) (links : ParsedLinks) :
    directionDisabled dir links true = true ∧
    (directionDisabled dir links false = true ↔ (linkFor dir links).results = false) ∧
    (∀ links' : ParsedLinks, (linkFor dir links').results = (linkFor dir links).results →
      ∀ b : Bool, directionDisabled dir links' b = directionDisabled dir links b) := by
  refine ⟨by simp [directionDisabled], ?_, ?_⟩
  · cases h : (linkFor dir links).results <;> simp [directionDisabled, h]
  · intro links' h b
    simp [directionDisabled, h]

/-- Witness for C3: disabled while loading even with results available, and
two links values differing only in the cursor token agree. -/
theorem C3_witness :
    directionDisabled Direction.next
      { previous := { cursor := none, results := false }
        next := { cursor := some "t", results := true } } true = true ∧
    directionDisabled Direction.next
      { previous := { cursor := none, results := false }
        next := { cursor := none, results := true } } false =
      directionDisabled Direction.next
        { previous := { cursor := none, results := false }
          next := { cursor := some "t", results := true } } false :=
  ⟨(C3_disabled_iff_no_results Direction.next _).1,
   (C3_disabled_iff_no_results Direction.next _).2.2 _ rfl false⟩

/-- Claim C4: the navigation target of a direction keeps the path, binds the
cursor key to that direction's cursor token, and leaves every other query key
unchanged. -/
theorem C4_nextLocation_frame (dir : Direction) (links : ParsedLinks) (loc : Location) :
    (nextLocation dir links loc).pathname = loc.pathname ∧
    getKey (nextLocation dir links loc).query "cursor" = some (linkFor dir links).cursor ∧
    ∀ k : String, k ≠ "cursor" → getKey (nextLocation dir links loc).query k = getKey loc.query k :=
  ⟨rfl, getKey_setKey_self _ _ _, fun _ hk => getKey_setKey_ne _ _ _ _ hk⟩

/-- Witness for C4: the unrelated statsPeriod key survives the next
navigation. -/
theorem C4_witness :
    getKey (nextLocation Direction.next
      { previous := { cursor := none, results := false }
        next := { cursor := some "10:20:0", results := true } }
      { pathname := "/issues/1/events/", query := [("statsPeriod", some "14d")] }).query
      "statsPeriod" = some (some "14d") := by
  have h := (C4_nextLocation_frame Direction.next
      { previous := { cursor := none, results := false }
        next := { cursor := some "10:20:0", results := true } }
      { pathname := "/issues/1/events/", query := [("statsPeriod", some "14d")] }).2.2
      "statsPeriod" (by decide)
  rw [h]
  decide

/-- Counterexample to claim C5: on the Scenario C header (next enabled, no
cursor token) the produced query does not have the cursor key absent — the
spread leaves the key present, bound to an undefined value. -/
theorem C5_counterexample :
    ¬ (getKey (nextLocation Direction.next
        (parseLinkHeader (some "<u>; rel=\"next\"; results=\"true\""))
        { pathname := "/p", query := [("statsPeriod", some "14d")] }).query "cursor" = none) := by
  decide

/-- Claim C5 as amended: when the descriptor of a direction has no cursor
token, the produced location carries the cursor key bound to an undefined
value — present in the bag, but holding no cursor string. -/
theorem C5_missing_cursor_undefined (dir : Direction) (links : ParsedLinks) (loc : Location)
    (h : (linkFor dir links).cursor = none) :
    getKey (nextLocation dir links loc).query "cursor" = some none := by
  simpa [nextLocation, h] using getKey_setKey_self loc.query "cursor" (linkFor dir links).cursor

/-- Witness for amended C5: the Scenario C header, whose next descriptor has
no cursor token. -/
theorem C5_witness :
    (linkFor Direction.next
      (parseLinkHeader (some "<u>; rel=\"next\"; results=\"true\""))).cursor = none ∧
    getKey (nextLocation Direction.next
      (parseLinkHeader (some "<u>; rel=\"next\"; results=\"true\""))
      { pathname := "/p", query := [] }).query "cursor" = some none :=
  ⟨by decide, C5_missing_cursor_undefined _ _ _ (by decide)⟩

/-- Claim C6, Scenario A: range 10 to 30 of 57, previous disabled, next
enabled, and the next target keeps the path, sets the cursor key to the next
token and leaves the other query key unchanged. -/
theorem C6_scenario_a :
    scenarioAState.range = some { start := 10, stop := 30, total := 57 } ∧
    scenarioAState.previousDisabled = true ∧
    scenarioAState.nextDisabled = false ∧
    scenarioAState.nextTo.pathname = scenarioALocation.pathname ∧
    getKey scenarioAState.nextTo.query "cursor" = some (some "10:20:0") ∧
    getKey scenarioAState.nextTo.query "statsPeriod" = getKey scenarioALocation.query "statsPeriod" := by
  decide

/-- Claim C7: the navigation target is a deterministic function of the
direction, the parsed links and the location — equal arguments give
structurally equal locations. -/
theorem C7_nextLocation_deterministic (dir dir' : Direction) (links links' : ParsedLinks)
    (loc loc' : Location) (h1 : dir = dir') (h2 : links = links') (h3 : loc = loc') :
    nextLocation dir links loc = nextLocation dir' links' loc' := by
  subst h1
  subst h2
  subst h3
  rfl

/-- Witness for C7: two evaluations at the same concrete arguments. -/
theorem C7_witness :
    nextLocation Direction.next
      { previous := emptyDescriptor, next := { cursor := some "t", results := true } }
      { pathname := "/p", query := [] } =
    nextLocation Direction.next
      { previous := emptyDescriptor, next := { cursor := some "t", results := true } }
      { pathname := "/p", query := [] } :=
  C7_nextLocation_deterministic _ _ _ _ _ _ rfl rfl rfl

/-- Counterexample to claim C8: on a malformed header with loading finished,
both directions are disabled, but the range is not empty — the summary is
rendered from the page counts, independently of the header. -/
theorem C8_counterexample :
    (renderTableHeader (some "garbage") 5 9 false
      { pathname := "/p", query := [] } "/b").previousDisabled = true ∧
    (renderTableHeader (some "garbage") 5 9 false
      { pathname := "/p", query := [] } "/b").nextDisabled = true ∧
    ¬ ((renderTableHeader (some "garbage") 5 9 false
      { pathname := "/p", query := [] } "/b").range = none) := by
  decide

/-- Claim C8 as amended: the controller is a total function of its inputs; a
header with no well-formed entry disables both directions, and the range is
absent exactly while loading — when idle it is still rendered from the page
counts, whatever the header. -/
theorem C8_malformed_conservative (header : Option String) (pc tc : Nat) (ip : Bool)
    (loc : Location) (bu : String) (h : rawLinks header = []) :
    (renderTableHeader header pc tc ip loc bu).previousDisabled = true ∧
    (renderTableHeader header pc tc ip loc bu).nextDisabled = true ∧
    (ip = true → (renderTableHeader header pc tc ip loc bu).range = none) ∧
    (ip = false → (renderTableHeader header pc tc ip loc bu).range =
      some { start := startOffset (queryCursor loc.query)
             stop := startOffset (queryCursor loc.query) + pc
             total := tc }) := by
  refine ⟨?_, ?_, fun hip => ?_, fun hip => ?_⟩ <;>
    simp_all [renderTableHeader, parseLinkHeader, descriptorFor, directionDisabled, linkFor,
      emptyDescriptor, computeRange]

/-- Witness for amended C8: a header none of whose pieces parses. -/
theorem C8_witness :
    rawLinks (some "nonsense") = [] ∧
    (renderTableHeader (some "nonsense") 0 0 true
      { pathname := "/p", query := [] } "/b").previousDisabled = true ∧
    (renderTableHeader (some "nonsense") 0 0 true
      { pathname := "/p", query := [] } "/b").range = none :=
  ⟨by decide,
   (C8_malformed_conservative (some "nonsense") 0 0 true
     { pathname := "/p", query := [] } "/b" (by decide)).1,
   (C8_malformed_conservative (some "nonsense") 0 0 true
     { pathname := "/p", query := [] } "/b" (by decide)).2.2.1 rfl⟩

/-- Claim C9: the close target uses the base url as its path and passes the
whole current query through unchanged, the cursor key included. -/
theorem C9_close_preserves_query (pl : Option String) (pc tc : Nat) (ip : Bool)
    (loc : Location) (bu : String) :
    (renderTableHeader pl pc tc ip loc bu).closeTo.pathname = bu ∧
    (renderTableHeader pl pc tc ip loc bu).closeTo.query = loc.query ∧
    getKey (renderTableHeader pl pc tc ip loc bu).closeTo.query "cursor" =
      getKey loc.query "cursor" :=
  ⟨rfl, rfl, rfl⟩

/-- Claim C10: the range, both disabled flags and both direction targets are
a deterministic function of exactly the header, the two counts, the loading
flag and the location — the base url, the only other input, may differ. -/
theorem C10_derived_state_deterministic (pl pl' : Option String) (pc pc' tc tc' : Nat)
    (ip ip' : Bool) (loc loc' : Location) (bu bu' : String)
    (h1 : pl = pl') (h2 : pc = pc') (h3 : tc = tc') (h4 : ip = ip') (h5 : loc = loc') :
    (renderTableHeader pl pc tc ip loc bu).range =
      (renderTableHeader pl' pc' tc' ip' loc' bu').range ∧
    (renderTableHeader pl pc tc ip loc bu).previousDisabled =
      (renderTableHeader pl' pc' tc' ip' loc' bu').previousDisabled ∧
    (renderTableHeader pl pc tc ip loc bu).nextDisabled =
      (renderTableHeader pl' pc' tc' ip' loc' bu').nextDisabled ∧
    (renderTableHeader pl pc tc ip loc bu).previousTo =
      (renderTableHeader pl' pc' tc' ip' loc' bu').previousTo ∧
    (renderTableHeader pl pc tc ip loc bu).nextTo =
      (renderTableHeader pl' pc' tc' ip' loc' bu').nextTo := by
  subst h1
  subst h2
  subst h3
  subst h4
  subst h5
  exact ⟨rfl, rfl, rfl, rfl, rfl⟩

/-- Witness for C10: equal five inputs but different base urls still give the
same range. -/
theorem C10_witness :
    (renderTableHeader none 1 2 false { pathname := "/p", query := [] } "/a").range =
    (renderTableHeader none 1 2 false { pathname := "/p", query := [] } "/b").range :=
  (C10_derived_state_deterministic none none 1 1 2 2 false false
    { pathname := "/p", query := [] } { pathname := "/p", query := [] } "/a" "/b"
    rfl rfl rfl rfl rfl).1

end EventList
